import Mathlib

/-!
Verification development for the box-label-verification-hub job orchestrator
(src/backend/inference_service.py and src/backend/main.py).

The Python code is shallowly embedded: job records and the job-store
operations become pure Lean functions over explicit state; wall-clock time
is passed explicitly as a parameter; database writes become record updates;
exceptions become Except values; the dispatcher / process registry become a
step function over an explicit registry state.
-/

namespace BoxLabelHub

/-- Job status values used in the inference_jobs table
(inference_service.py: "pending", "running", "completed", "failed",
"cancelled"). -/
inductive Status
  | pending
  | running
  | completed
  | failed
  | cancelled
  deriving DecidableEq, Repr

/-- The terminal statuses: completed, failed, cancelled (spec glossary and
main.py _watch_job_process line 346). -/
def Status.isTerminal : Status → Bool
  | .completed => true
  | .failed => true
  | .cancelled => true
  | _ => false

/-- The string stored in the status column for each status value. -/
def Status.toStr : Status → String
  | .pending => "pending"
  | .running => "running"
  | .completed => "completed"
  | .failed => "failed"
  | .cancelled => "cancelled"

/-- One row of the inference_jobs table (inference_service.py
create_job, lines 307-323).  Timestamps are modelled as Nat instants
supplied by the caller; text columns are Strings. -/
structure JobRecord where
  job_id : String
  engine : String
  preprocessing : String
  dataset_version : String
  dataset_name : String
  status : Status
  total_images : Nat
  processed_images : Nat
  created_at : Nat
  started_at : Option Nat
  completed_at : Option Nat
  error_message : Option String
  deriving DecidableEq, Repr

/-- Python slicing s[:2000] used for the stored error message
(inference_service.py line 652, main.py lines 365 and 818): the first
2000 characters of the string. -/
def truncate2000 (s : String) : String :=
  String.mk (s.data.take 2000)

/-- InferenceService.create_job (inference_service.py lines 286-325):
inserts a fresh row with status pending, processed_images 0,
created_at now, and empty timestamps/error. -/
def create_job (job_id engine dataset_version dataset_name : String)
    (total_images : Nat) (preprocessing : String) (now : Nat) : JobRecord :=
  { job_id := job_id
    engine := engine
    preprocessing := preprocessing
    dataset_version := dataset_version
    dataset_name := dataset_name
    status := Status.pending
    total_images := total_images
    processed_images := 0
    created_at := now
    started_at := none
    completed_at := none
    error_message := none }

/-- InferenceService.update_job_status (inference_service.py lines
327-354): a partial merge onto the existing row.  The status is always
written; processed_images only when supplied; started_at is stamped when
status is "running" and no processed_images accompany the update;
completed_at is stamped when status is "completed" or "failed"; the
error message is written only when it is a non-empty string (Python
truthiness of the error_message argument). -/
def update_job_status (now : Nat) (rec : JobRecord) (status : Status)
    (processed_images : Option Nat) (error_message : Option String) : JobRecord :=
  let rec1 := { rec with status := status }
  let rec2 :=
    match processed_images with
    | some p => { rec1 with processed_images := p }
    | none => rec1
  let rec3 :=
    if status = Status.running ∧ processed_images = none then
      { rec2 with started_at := some now }
    else if status = Status.completed ∨ status = Status.failed then
      { rec2 with completed_at := some now }
    else rec2
  match error_message with
  | some msg => if msg ≠ "" then { rec3 with error_message := some msg } else rec3
  | none => rec3

section UpdateFieldLemmas

variable (now : Nat) (r : JobRecord) (s : Status) (p : Option Nat) (e : Option String)

theorem update_status : (update_job_status now r s p e).status = s := by
  unfold update_job_status
  rcases p with _ | k <;> rcases e with _ | msg <;> dsimp only <;> split_ifs <;> rfl

theorem update_total : (update_job_status now r s p e).total_images = r.total_images := by
  unfold update_job_status
  rcases p with _ | k <;> rcases e with _ | msg <;> dsimp only <;> split_ifs <;> rfl

theorem update_job_id : (update_job_status now r s p e).job_id = r.job_id := by
  unfold update_job_status
  rcases p with _ | k <;> rcases e with _ | msg <;> dsimp only <;> split_ifs <;> rfl

theorem update_processed_some (k : Nat) :
    (update_job_status now r s (some k) e).processed_images = k := by
  unfold update_job_status
  rcases e with _ | msg <;> dsimp only <;> split_ifs <;> rfl

theorem update_processed_none :
    (update_job_status now r s none e).processed_images = r.processed_images := by
  unfold update_job_status
  rcases e with _ | msg <;> dsimp only <;> split_ifs <;> rfl

theorem update_started_of_processed_some (k : Nat) :
    (update_job_status now r s (some k) e).started_at = r.started_at := by
  unfold update_job_status
  rcases e with _ | msg <;> dsimp only <;> split_ifs <;> simp_all

theorem update_started_running_none :
    (update_job_status now r Status.running none e).started_at = some now := by
  unfold update_job_status
  rcases e with _ | msg <;> dsimp only <;> split_ifs <;> simp_all

theorem update_completed_at_done (h : s = Status.completed ∨ s = Status.failed) :
    (update_job_status now r s p e).completed_at = some now := by
  unfold update_job_status
  rcases h with rfl | rfl <;> rcases p with _ | k <;> rcases e with _ | msg <;>
    dsimp only <;> split_ifs <;> simp_all

theorem update_completed_at_cancelled :
    (update_job_status now r Status.cancelled p e).completed_at = r.completed_at := by
  unfold update_job_status
  rcases p with _ | k <;> rcases e with _ | msg <;> dsimp only <;> split_ifs <;> simp_all

theorem update_error_some (msg : String) (hm : msg ≠ "") :
    (update_job_status now r s p (some msg)).error_message = some msg := by
  unfold update_job_status
  rcases p with _ | k <;> dsimp only <;> split_ifs <;> simp_all

end UpdateFieldLemmas

/-! ## Worker runner (InferenceService.run_inference, lines 480-655, and the
process entry point run_inference_process, main.py lines 702-820) -/

/-- One detection returned by the Roboflow detector
(roboflow_detector.py Detection: class_name, confidence, bbox).
The numeric fields are carried opaquely; only the class name and the
presence of detections matter to the orchestration logic. -/
structure Detection where
  class_name : String
  confidence : Rat
  deriving DecidableEq, Repr

/-- Environment outcome of one image's pipeline up to the per-crop OCR
calls (run_inference lines 558-597).

ok dets crops: detection and cropping succeeded; each crop's OCR call
either returns text (Except.ok) or raises (Except.error), the latter
being caught by the per-crop handler at lines 587-590.

exc err: an exception escaped to the per-image handler at lines 592-597
(image load failure, detection failure, or the per-image timeout). -/
inductive UnitPipeline
  | ok (detections : List Detection) (crops : List (String × Except String String))
  | exc (err : String)
  deriving Repr

/-- The row stored by store_image_result for one image (lines 357-392):
the detections and the per-crop OCR texts that were recorded. -/
structure ImageResult where
  image_filename : String
  detections : List Detection
  ocr_results : List (String × String)
  deriving DecidableEq, Repr

/-- What one loop iteration records for an image (lines 558-609): on a
per-image exception, empty detections and an empty OCR dict; otherwise
the detections plus, for each crop, the OCR text, with a per-crop OCR
exception recorded as the empty string. -/
def process_unit : UnitPipeline → List Detection × List (String × String)
  | .exc _ => ([], [])
  | .ok dets crops =>
      (dets, crops.map fun c =>
        (c.1, match c.2 with | .ok t => t | .error _ => ""))

/-- The per-image loop of run_inference (lines 551-637): processes each
image, stores its result, and persists progress with
update_job_status(job_id, "running", processed_images=idx+1) after every
image.  done is the number of images already processed (the loop index). -/
def run_units (now : Nat) : JobRecord → Nat → List (String × UnitPipeline) →
    JobRecord × List ImageResult
  | r, _, [] => (r, [])
  | r, done, u :: rest =>
      let pu := process_unit u.2
      let res : ImageResult :=
        { image_filename := u.1, detections := pu.1, ocr_results := pu.2 }
      let r1 := update_job_status now r Status.running (some (done + 1)) none
      let rec0 := run_units now r1 (done + 1) rest
      (rec0.1, res :: rec0.2)

/-- The record after a full run of the loop plus the final
update_job_status(job_id, "completed", processed_images=len(image_files))
at line 643 (the summary write at line 640 does not touch the job row). -/
def run_inference_complete (now : Nat) (r : JobRecord)
    (units : List (String × UnitPipeline)) : JobRecord :=
  update_job_status now (run_units now r 0 units).1 Status.completed
    (some units.length) none

/-- run_inference with the job id supplied (lines 541-655).  escape models
an exception that escapes the per-job loop itself (e.g. detector
initialisation failure or a storage write failing after retry
exhaustion): some (j, e) means the diagnostic e escapes after j images.
In that case the except block at lines 645-653 marks the job failed with
the diagnostic truncated to 2000 characters and re-raises (Except.error,
carrying the exception). -/
def run_inference (now : Nat) (r : JobRecord) (units : List (String × UnitPipeline))
    (escape : Option (Nat × String)) :
    Except (String × JobRecord) (JobRecord × List ImageResult) :=
  match escape with
  | none =>
      let out := run_units now r 0 units
      .ok (update_job_status now out.1 Status.completed (some units.length) none, out.2)
  | some je =>
      let out := run_units now r 0 (units.take je.1)
      .error (je.2,
        update_job_status now out.1 Status.failed none (some (truncate2000 je.2)))

/-- run_inference_process (main.py lines 702-820): marks the job running
(line 794), runs run_inference, and catches ANY escaping exception at
lines 808-818, re-writing the failed status with the truncated
diagnostic and then returning normally.  Returns the final job record
and the OS exit code of the worker process: 0 on both paths, because the
except block swallows the re-raised exception. -/
def run_inference_process (now : Nat) (r : JobRecord)
    (units : List (String × UnitPipeline)) (escape : Option (Nat × String)) :
    JobRecord × Nat :=
  let r0 := update_job_status now r Status.running none none
  match run_inference now r0 units escape with
  | .ok out => (out.1, 0)
  | .error err =>
      (update_job_status now err.2 Status.failed none (some (truncate2000 err.1)), 0)

section RunLemmas

variable (now : Nat)

/-- The stored image results are exactly the per-unit recordings, in
order, independent of the record state threaded through the loop. -/
theorem run_units_snd (r : JobRecord) (done : Nat)
    (units : List (String × UnitPipeline)) :
    (run_units now r done units).2 =
      units.map (fun u =>
        { image_filename := u.1, detections := (process_unit u.2).1,
          ocr_results := (process_unit u.2).2 }) := by
  induction units generalizing r done with
  | nil => rfl
  | cons u rest ih => simp [run_units, ih]

/-- The loop never touches total_images. -/
theorem run_units_total (r : JobRecord) (done : Nat)
    (units : List (String × UnitPipeline)) :
    (run_units now r done units).1.total_images = r.total_images := by
  induction units generalizing r done with
  | nil => rfl
  | cons u rest ih => simp [run_units, ih, update_total]

end RunLemmas

/-! ## Watchdog (_watch_job_process, main.py lines 321-379) and
cancellation (delete_job, lines 1140-1163) -/

/-- _format_exitcode (main.py lines 306-318).  A negative exit code is a
signal; the Python code resolves the signal name via signal.Signals and
falls back to "SIG{n}"; the fallback spelling is modelled here. -/
def format_exitcode (exitcode : Option Int) : String :=
  match exitcode with
  | none => "exitcode=None"
  | some e =>
      if e = 0 then "exitcode=0"
      else if e < 0 then
        "exitcode=" ++ toString e ++ " (SIG" ++ toString (-e) ++ ")"
      else "exitcode=" ++ toString e

/-- The failure message built by the watchdog (main.py lines 356-360):
embeds the worker pid, the formatted exit code/signal, the status it
observed, and the last known progress processed/total. -/
def watchMsg (pid : Nat) (exitcode : Option Int) (current : Status)
    (processed total : Nat) : String :=
  "Worker process exited before job completed. pid=" ++ toString pid ++ " " ++
    format_exitcode exitcode ++ " status=" ++ current.toStr ++
    " processed=" ++ toString processed ++ "/" ++ toString total

/-- The reconciliation decision of _watch_job_process once the worker
process is no longer alive (main.py lines 341-368). -/
inductive WatchdogAction
  | noRecord
  | alreadyTerminal
  | writeCompleted (processed : Nat)
  | writeFailed (msg : String)
  deriving DecidableEq, Repr

/-- _watch_job_process reconciliation logic (main.py lines 341-368): no
record means nothing to do; a terminal persisted status means nothing to
do (idempotent); exit code 0 with total > 0 and processed ≥ total means
a completed write; anything else means a failed write whose message is
watchMsg (stored truncated to 2000 characters). -/
def watch_reconcile (record : Option JobRecord) (pid : Nat)
    (exitcode : Option Int) : WatchdogAction :=
  match record with
  | none => .noRecord
  | some st =>
      if st.status.isTerminal then .alreadyTerminal
      else if exitcode = some 0 ∧ 0 < st.total_images ∧
          st.total_images ≤ st.processed_images then
        .writeCompleted st.processed_images
      else
        .writeFailed (watchMsg pid exitcode st.status st.processed_images st.total_images)

/-- The effect of the watchdog's reconciliation on the persisted record:
a completed decision writes update_job_status(job_id, "completed",
processed_images=processed) (line 353); a failed decision writes
update_job_status(job_id, "failed", error_message=msg[:2000]) (line
365); otherwise the record is left untouched. -/
def apply_watchdog (now : Nat) (record : Option JobRecord) (pid : Nat)
    (exitcode : Option Int) : Option JobRecord :=
  match record, watch_reconcile record pid exitcode with
  | some r, .writeCompleted p =>
      some (update_job_status now r Status.completed (some p) none)
  | some r, .writeFailed msg =>
      some (update_job_status now r Status.failed none (some (truncate2000 msg)))
  | rec0, _ => rec0

/-- The cancellation write of the delete endpoints (main.py lines
1154-1155 and 1202-1203): mark the job cancelled only when its persisted
status is "running". -/
def cancel_if_running (now : Nat) (r : JobRecord) : JobRecord :=
  if r.status = Status.running then
    update_job_status now r Status.cancelled none none
  else r

/-! ## Observable snapshots of one API-started job (C6)

start_inference (main.py lines 851-922) creates the record with
total_images = dataset.image_count taken from the S3 listing; the worker
process then marks it running (line 794) and run_inference iterates the
images found in the LOCAL dataset directory (inference_service.py lines
509-513), writing processed_images = idx+1 after each one and finally
processed_images = len(image_files).  Nothing ties the listed count to
the local enumeration, so they are independent parameters here. -/

/-- Every state of the job row as run_units persists progress: the
record after each per-unit write, in order. -/
def run_units_records (now : Nat) : JobRecord → Nat →
    List (String × UnitPipeline) → List JobRecord
  | _, _, [] => []
  | r, done, _ :: rest =>
      let r1 := update_job_status now r Status.running (some (done + 1)) none
      r1 :: run_units_records now r1 (done + 1) rest

/-- All observable snapshots of one single job started through the API:
the created row, the row after the worker's running write, the row after
each per-unit progress write, and the row after the final completed
write.  listed_image_count is the S3 listing count used at creation;
units is the worker's local enumeration. -/
def single_job_snapshots (now : Nat) (job_id engine dsv dsn prep : String)
    (listed_image_count : Nat) (units : List (String × UnitPipeline)) :
    List JobRecord :=
  let r0 := create_job job_id engine dsv dsn listed_image_count prep now
  let r1 := update_job_status now r0 Status.running none none
  r0 :: r1 :: (run_units_records now r1 0 units ++ [run_inference_complete now r1 units])

/-- Each intermediate record of the loop keeps the creation total and has
processed_images bounded by the number of units enumerated so far. -/
theorem mem_run_units_records (now : Nat) :
    ∀ (units : List (String × UnitPipeline)) (r : JobRecord) (done : Nat),
      r.processed_images ≤ done →
      ∀ rec0 ∈ run_units_records now r done units,
        rec0.total_images = r.total_images ∧
        rec0.processed_images ≤ done + units.length := by
  intro units
  induction units with
  | nil => intro r done _ rec0 h; simp [run_units_records] at h
  | cons u rest ih =>
      intro r done hle rec0 hmem
      simp only [run_units_records, List.mem_cons] at hmem
      rcases hmem with rfl | hmem
      · constructor
        · exact update_total now r Status.running (some (done + 1)) none
        · rw [update_processed_some]
          simp only [List.length_cons]
          omega
      · have h2 := ih (update_job_status now r Status.running (some (done + 1)) none)
          (done + 1) (by rw [update_processed_some]) rec0 hmem
        constructor
        · rw [h2.1, update_total]
        · simp only [List.length_cons]
          omega

/-! ## Process registry, watchers and dispatcher (main.py lines 53-303
and 321-387)

_JOB_PROCESSES (main.py line 53) maps job id to the worker Process
handle; several job ids of one batch map to the same handle (same OS
pid).  _JOB_WATCH_TASKS (line 54) maps job id to the watcher task
created for it.  Both are dicts, so registration overwrites a previous
binding.  The dispatcher is the only launcher, and it launches only when
_get_active_worker_pids() is empty, re-checked inside _START_LOCK
(lines 211-236); a freshly spawned process has a pid distinct from every
live process. -/

structure Registry where
  entries : List (String × Nat)
  alive : List Nat
  deriving DecidableEq, Repr

/-- _get_active_worker_pids (main.py lines 291-303): the alive worker
processes keyed by pid, so a batch process backing several job ids is
counted once.  The Python builds a dict keyed by int(pid); here the
alive entry pids are collected and deduplicated. -/
def get_active_worker_pids (reg : Registry) : List Nat :=
  (reg.entries.filterMap fun e =>
    if e.2 ∈ reg.alive then some e.2 else none).dedup

/-- Look up the process handle (pid) registered for a job id
(_JOB_PROCESSES.get, main.py line 280). -/
def lookupPid (reg : Registry) (job : String) : Option Nat :=
  (reg.entries.find? fun e => e.1 == job).map (fun e => e.2)

/-- The supervision state owned by the parent event loop: _JOB_PROCESSES
(job id → pid of the registered handle), _JOB_WATCH_TASKS (job id → the
pid captured by the job's active watcher task; a finished watcher
removes its own binding in its finally block, so a present binding is an
active task), and the pids of the worker OS processes that are currently
alive. -/
structure Supervisor where
  entries : List (String × Nat)
  watchers : List (String × Nat)
  alive : List Nat
  deriving DecidableEq, Repr

/-- The (_JOB_PROCESSES, liveness) view consulted by
_get_active_worker_pids. -/
def Supervisor.registry (s : Supervisor) : Registry :=
  { entries := s.entries, alive := s.alive }

/-- The empty supervision state at startup. -/
def emptySupervisor : Supervisor :=
  { entries := [], watchers := [], alive := [] }

/-- _register_and_watch_job (main.py lines 382-387) for one job id:
the dict assignment _JOB_PROCESSES[job_id] = process overwrites any
existing binding, and a new watcher capturing this process handle is
created only when the job has no active watcher task — an existing live
watcher keeps watching the OLD handle. -/
def register_one (pid : Nat) (st : Supervisor) (j : String) : Supervisor :=
  { st with
    entries := (j, pid) :: st.entries.filter (fun e => e.1 != j),
    watchers :=
      if (st.watchers.find? (fun e => e.1 == j)).isSome then st.watchers
      else (j, pid) :: st.watchers }

/-- Registration of a launched process for all its job ids
(_start_single_job line 95 and _start_batch_jobs lines 131-132 call
_register_and_watch_job once per job id). -/
def register_and_watch (s : Supervisor) (jobs : List String) (pid : Nat) : Supervisor :=
  jobs.foldl (register_one pid) s

/-- The events that mutate the supervision state.

launch: the dispatcher starts one worker process serving the given job
ids and registers every id against it; guarded by the capacity check
re-run inside _START_LOCK (lines 229-236), by the non-empty job-id check
of _start_queue_item (line 171), and by OS pid freshness (a freshly
spawned process has a pid distinct from every live pid).

procExit: the worker process stops being alive (exit, crash or kill).

watchdogFire job pid: the watcher task for job that captured the handle
with this pid finishes: its polling loop (lines 329-330) exits only once
THAT process is dead, and its finally block (lines 375-379) then pops
_JOB_PROCESSES[job] and _JOB_WATCH_TASKS[job] unconditionally — even if
the registry binding was meanwhile overwritten with a newer, still-live
process. -/
inductive SupEvent
  | launch (job_ids : List String) (pid : Nat)
  | procExit (pid : Nat)
  | watchdogFire (job_id : String) (pid : Nat)

/-- One supervision-state transition per event, with exactly the guards
the code has. -/
def supStep (s : Supervisor) (ev : SupEvent) : Supervisor :=
  match ev with
  | .launch jobs pid =>
      if get_active_worker_pids s.registry = [] ∧ jobs ≠ [] ∧ pid ∉ s.alive then
        register_and_watch { s with alive := pid :: s.alive } jobs pid
      else s
  | .procExit pid => { s with alive := s.alive.filter (fun q => q != pid) }
  | .watchdogFire job pid =>
      if (job, pid) ∈ s.watchers ∧ pid ∉ s.alive then
        { s with
          entries := s.entries.filter (fun e => e.1 != job),
          watchers := s.watchers.filter (fun e => e.1 != job) }
      else s

theorem mem_get_active_worker_pids (reg : Registry) (p : Nat) :
    p ∈ get_active_worker_pids reg ↔ (∃ j, (j, p) ∈ reg.entries) ∧ p ∈ reg.alive := by
  unfold get_active_worker_pids
  rw [List.mem_dedup, List.mem_filterMap]
  constructor
  · rintro ⟨e, he, hif⟩
    by_cases h : e.2 ∈ reg.alive
    · rw [if_pos h] at hif
      obtain rfl : e.2 = p := Option.some_injective _ hif
      exact ⟨⟨e.1, he⟩, h⟩
    · rw [if_neg h] at hif; exact absurd hif (Option.noConfusion)
  · rintro ⟨⟨j, hj⟩, hp⟩
    exact ⟨(j, p), hj, by simp [hp]⟩

/-- Registration never touches the set of live pids. -/
theorem register_alive (jobs : List String) :
    ∀ (s : Supervisor) (pid : Nat), (register_and_watch s jobs pid).alive = s.alive := by
  induction jobs with
  | nil => intro s pid; rfl
  | cons a t ih => intro s pid; exact ih (register_one pid s a) pid

/-- Every _JOB_PROCESSES binding after registration is either the fresh
pid or a pre-existing binding. -/
theorem register_entries_mem (jobs : List String) :
    ∀ (s : Supervisor) (pid : Nat) (j : String) (p : Nat),
      (j, p) ∈ (register_and_watch s jobs pid).entries →
      p = pid ∨ (j, p) ∈ s.entries := by
  induction jobs with
  | nil =>
      intro s pid j p hmem
      exact Or.inr hmem
  | cons a t ih =>
      intro s pid j p hmem
      rcases ih (register_one pid s a) pid j p hmem with h1 | h1
      · exact Or.inl h1
      · dsimp only [register_one] at h1
        rcases List.mem_cons.mp h1 with h2 | h2
        · exact Or.inl (congrArg Prod.snd h2)
        · exact Or.inr (List.mem_of_mem_filter h2)

/-- The active list is monotone under shrinking entries and alive. -/
theorem active_mono (r1 r2 : Registry)
    (he : ∀ e, e ∈ r1.entries → e ∈ r2.entries)
    (ha : ∀ p, p ∈ r1.alive → p ∈ r2.alive) :
    ∀ p ∈ get_active_worker_pids r1, p ∈ get_active_worker_pids r2 := by
  intro p hp
  obtain ⟨⟨j, hj⟩, hpa⟩ := (mem_get_active_worker_pids r1 p).1 hp
  exact (mem_get_active_worker_pids r2 p).2 ⟨⟨j, he (j, p) hj⟩, ha p hpa⟩

/-- At most one distinct pid is both registered and alive: all members
of the active list are equal. -/
def ActiveAllEq (s : Supervisor) : Prop :=
  ∀ p ∈ get_active_worker_pids s.registry,
    ∀ q ∈ get_active_worker_pids s.registry, p = q

theorem activeAllEq_empty : ActiveAllEq emptySupervisor := by
  intro p hp
  simp [get_active_worker_pids, emptySupervisor, Supervisor.registry] at hp

theorem supStep_preserves (s : Supervisor) (ev : SupEvent) (h : ActiveAllEq s) :
    ActiveAllEq (supStep s ev) := by
  cases ev with
  | launch jobs pid =>
      dsimp only [supStep]
      by_cases hg : get_active_worker_pids s.registry = [] ∧ jobs ≠ [] ∧ pid ∉ s.alive
      case pos =>
        rw [if_pos hg]
        obtain ⟨hempty, hjobs, hfresh⟩ := hg
        have halv : (register_and_watch { s with alive := pid :: s.alive } jobs
            pid).alive = pid :: s.alive :=
          register_alive jobs { s with alive := pid :: s.alive } pid
        have hpid : ∀ p ∈ get_active_worker_pids
            (register_and_watch { s with alive := pid :: s.alive } jobs pid).registry,
            p = pid := by
          intro p hp
          obtain ⟨⟨j, hj⟩, hpa⟩ := (mem_get_active_worker_pids _ p).1 hp
          rcases register_entries_mem jobs { s with alive := pid :: s.alive } pid j p
            hj with h1 | h1
          · exact h1
          · by_contra hne
            have hpa2 : p ∈ (register_and_watch { s with alive := pid :: s.alive }
                jobs pid).alive := hpa
            rw [halv] at hpa2
            have hps : p ∈ s.alive := by
              rcases List.mem_cons.mp hpa2 with h2 | h2
              · exact absurd h2 hne
              · exact h2
            have : p ∈ get_active_worker_pids s.registry :=
              (mem_get_active_worker_pids s.registry p).2 ⟨⟨j, h1⟩, hps⟩
            rw [hempty] at this
            exact absurd this (List.not_mem_nil p)
        intro p hp q hq
        rw [hpid p hp, hpid q hq]
      case neg => rw [if_neg hg]; exact h
  | procExit pid =>
      dsimp only [supStep]
      intro p hp q hq
      have hmono := active_mono
        (Supervisor.registry
          { s with alive := s.alive.filter (fun q2 => q2 != pid) }) s.registry
        (fun e he => he)
        (fun p2 hp2 => List.mem_of_mem_filter hp2)
      exact h p (hmono p hp) q (hmono q hq)
  | watchdogFire job pid =>
      dsimp only [supStep]
      by_cases hg : (job, pid) ∈ s.watchers ∧ pid ∉ s.alive
      case pos =>
        rw [if_pos hg]
        intro p hp q hq
        have hmono := active_mono
          (Supervisor.registry
            { s with
              entries := s.entries.filter (fun e => e.1 != job),
              watchers := s.watchers.filter (fun e => e.1 != job) }) s.registry
          (fun e he => List.mem_of_mem_filter he)
          (fun p2 hp2 => hp2)
        exact h p (hmono p hp) q (hmono q hq)
      case neg => rw [if_neg hg]; exact h

theorem activeAllEq_foldl (events : List SupEvent) :
    ∀ (s : Supervisor), ActiveAllEq s → ActiveAllEq (events.foldl supStep s) := by
  induction events with
  | nil => intro s h; exact h
  | cons ev rest ih => intro s h; exact ih (supStep s ev) (supStep_preserves s ev h)

/-- A list with no duplicates whose elements are all equal has at most
one element. -/
theorem nodup_allEq_length_le (l : List Nat) (hnd : l.Nodup)
    (hall : ∀ p ∈ l, ∀ q ∈ l, p = q) : l.length ≤ 1 := by
  match l with
  | [] => simp
  | [a] => simp
  | a :: b :: t =>
      exfalso
      have hab : a = b := hall a (by simp) b (by simp)
      rw [List.nodup_cons] at hnd
      exact hnd.1 (hab ▸ List.mem_cons_self b t)

/-- In every supervision state reachable from startup, the capacity
accounting reports at most one live worker process. -/
theorem sup_active_le_one (events : List SupEvent) :
    (get_active_worker_pids
      ((events.foldl supStep emptySupervisor).registry)).length ≤ 1 := by
  refine nodup_allEq_length_le _ (List.nodup_dedup _) ?_
  exact activeAllEq_foldl events emptySupervisor activeAllEq_empty

/-! ## Queued-item start filter (_start_queue_item, main.py lines 166-204) -/

/-- A queued work item: one job id (single) or the job ids of a
sequential batch (launch parameters such as engine and preprocessing do
not influence the start/discard decision). -/
inductive QueueItem
  | single (job_id : String)
  | batch (job_ids : List String)
  deriving Repr

/-- The process launch decided by _start_queue_item, if any. -/
inductive LaunchAction
  | startSingle (job_id : String)
  | startBatch (job_ids : List String)
  deriving DecidableEq, Repr

/-- Find a job row by id (get_job_status returning a row or None). -/
def find_job (recs : List JobRecord) (job : String) : Option JobRecord :=
  recs.find? (fun r => r.job_id == job)

/-- _start_queue_item (main.py lines 166-204): a batch item with no job
ids, or none of whose first three job ids still has a record, is
discarded; a single item is started only when its record exists and is
still pending; everything else is discarded without starting a
process. -/
def start_queue_item (recs : List JobRecord) (item : QueueItem) :
    Option LaunchAction :=
  match item with
  | .batch jobs =>
      if jobs = [] then none
      else if (jobs.take 3).any (fun j => (find_job recs j).isSome) then
        some (.startBatch jobs)
      else none
  | .single job =>
      match find_job recs job with
      | some r => if r.status = Status.pending then some (.startSingle job) else none
      | none => none

/-! ## Timeout guard (_time_limit, inference_service.py lines 65-106)

The guard arms ITIMER_REAL with its own deadline after saving the timer
it found (getitimer, line 87), and on exit cancels its timer and re-arms
the saved one decremented by the elapsed wall-clock time (lines 96-106).
The timer state is the remaining time of ITIMER_REAL at the current
instant (0 means disarmed) plus its repeat interval; both the normal
exit and the TimeoutError path run the same finally block. -/

structure TimerState where
  remaining : Rat
  interval : Rat
  deriving DecidableEq, Repr

/-- Entering _time_limit with a positive deadline: save the old timer and
arm the guard's own (lines 85-93).  Returns (saved old timer, timer
state while the body runs). -/
def time_limit_enter (seconds : Rat) (st : TimerState) : TimerState × TimerState :=
  (st, { remaining := seconds, interval := 0 })

/-- Leaving _time_limit (the finally block, lines 96-106) after elapsed
seconds of body execution: cancel the guard's timer, and if the saved
timer was armed, re-arm it with max(0, old_remaining - elapsed) — but
only when that is still positive. -/
def time_limit_exit (saved : TimerState) (elapsed : Rat) : TimerState :=
  if 0 < saved.remaining then
    let rem := max 0 (saved.remaining - elapsed)
    if 0 < rem then { remaining := rem, interval := saved.interval }
    else { remaining := 0, interval := 0 }
  else { remaining := 0, interval := 0 }

/-! ## Delete endpoint (delete_job, main.py lines 1140-1163) -/

/-- _terminate_workers_for_job_ids (main.py lines 275-289) followed by
successful termination: every alive pid registered for one of the given
job ids is terminated (SIGTERM then SIGKILL) and stops being alive. -/
def terminate_workers_for_job_ids (reg : Registry) (jobs : List String) : Registry :=
  { reg with
    alive := reg.alive.filter
      (fun p => !(jobs.any (fun j => lookupPid reg j == some p))) }

/-- Outcome reported by the DELETE /inference/jobs/job_id endpoint. -/
inductive DeleteOutcome
  | notFound
  | deleted (message : String)
  deriving DecidableEq, Repr

/-- delete_job (main.py lines 1140-1163): 404 when the record is gone;
otherwise terminate any worker associated with THIS job id, mark the job
cancelled only if it is running, delete its rows, and answer with the
fixed message "Job deleted from Pixeltable".  No other job id is read,
written or mentioned. -/
def delete_job_endpoint (now : Nat) (recs : List JobRecord) (reg : Registry)
    (job : String) : List JobRecord × Registry × DeleteOutcome :=
  match find_job recs job with
  | none => (recs, reg, .notFound)
  | some r =>
      let reg1 := terminate_workers_for_job_ids reg [job]
      let recs1 :=
        if r.status = Status.running then
          recs.map (fun x =>
            if x.job_id == job then update_job_status now x Status.cancelled none none
            else x)
        else recs
      let recs2 := recs1.filter (fun x => x.job_id != job)
      (recs2, reg1, .deleted "Job deleted from Pixeltable")

/-! ## Helper lemmas shared by the claim theorems -/

theorem truncate2000_length (s : String) : (truncate2000 s).length ≤ 2000 :=
  List.length_take_le 2000 s.data

theorem truncate2000_ne_empty (s : String) (h : s ≠ "") : truncate2000 s ≠ "" := by
  intro hc
  apply h
  have hdat : s.data.take 2000 = [] := congrArg String.data hc
  have hlen := congrArg List.length hdat
  rw [List.length_take] at hlen
  have h0 : s.data.length = 0 := by
    rcases Nat.min_eq_zero_iff.mp hlen with h2 | h2
    · exact absurd h2 (by norm_num)
    · exact h2
  cases s with
  | mk d =>
      have hd : d = [] := List.length_eq_zero.mp h0
      simp [hd]

theorem append_ne_empty_left (a b : String) (h : a ≠ "") : a ++ b ≠ "" := by
  intro hc
  apply h
  have hlen := congrArg String.length hc
  rw [String.length_append] at hlen
  have h0 : String.length "" = 0 := rfl
  rw [h0] at hlen
  have ha : a.length = 0 := by omega
  cases a with
  | mk d =>
      have hd : d = [] := List.length_eq_zero.mp ha
      simp [hd]

theorem watchMsg_ne_empty (pid : Nat) (ec : Option Int) (cur : Status)
    (processed total : Nat) : watchMsg pid ec cur processed total ≠ "" := by
  unfold watchMsg
  repeat (apply append_ne_empty_left)
  decide

theorem watch_reconcile_terminal (r : JobRecord) (pid : Nat) (ec : Option Int)
    (h : r.status.isTerminal = true) :
    watch_reconcile (some r) pid ec = WatchdogAction.alreadyTerminal := by
  simp [watch_reconcile, h]

theorem watch_reconcile_completed (r : JobRecord) (pid : Nat) (ec : Option Int)
    (h1 : r.status.isTerminal = false)
    (h2 : ec = some 0 ∧ 0 < r.total_images ∧ r.total_images ≤ r.processed_images) :
    watch_reconcile (some r) pid ec = WatchdogAction.writeCompleted r.processed_images := by
  simp only [watch_reconcile, h1, Bool.false_eq_true, if_false]
  rw [if_pos h2]

theorem watch_reconcile_failed (r : JobRecord) (pid : Nat) (ec : Option Int)
    (h1 : r.status.isTerminal = false)
    (h2 : ¬(ec = some 0 ∧ 0 < r.total_images ∧ r.total_images ≤ r.processed_images)) :
    watch_reconcile (some r) pid ec =
      WatchdogAction.writeFailed
        (watchMsg pid ec r.status r.processed_images r.total_images) := by
  simp only [watch_reconcile, h1, Bool.false_eq_true, if_false]
  rw [if_neg h2]

theorem apply_watchdog_terminal (now : Nat) (r : JobRecord) (pid : Nat)
    (ec : Option Int) (h : r.status.isTerminal = true) :
    apply_watchdog now (some r) pid ec = some r := by
  unfold apply_watchdog
  rw [watch_reconcile_terminal r pid ec h]

theorem apply_watchdog_completed (now : Nat) (r : JobRecord) (pid : Nat)
    (ec : Option Int) (h1 : r.status.isTerminal = false)
    (h2 : ec = some 0 ∧ 0 < r.total_images ∧ r.total_images ≤ r.processed_images) :
    apply_watchdog now (some r) pid ec =
      some (update_job_status now r Status.completed (some r.processed_images) none) := by
  unfold apply_watchdog
  rw [watch_reconcile_completed r pid ec h1 h2]

theorem apply_watchdog_failed (now : Nat) (r : JobRecord) (pid : Nat)
    (ec : Option Int) (h1 : r.status.isTerminal = false)
    (h2 : ¬(ec = some 0 ∧ 0 < r.total_images ∧ r.total_images ≤ r.processed_images)) :
    apply_watchdog now (some r) pid ec =
      some (update_job_status now r Status.failed none
        (some (truncate2000
          (watchMsg pid ec r.status r.processed_images r.total_images)))) := by
  unfold apply_watchdog
  rw [watch_reconcile_failed r pid ec h1 h2]

/-- find? over a map that preserves the predicate and fixes every
element satisfying it. -/
theorem find_map_pred_preserved {α : Type} (g : α → α) (p : α → Bool)
    (hg : ∀ a, p (g a) = p a) (hfix : ∀ a, p a = true → g a = a) :
    ∀ l : List α, (l.map g).find? p = l.find? p := by
  intro l
  induction l with
  | nil => rfl
  | cons a t ih =>
      rw [List.map_cons, List.find?_cons, List.find?_cons, hg a]
      cases hpa : p a with
      | true => rw [hfix a hpa]
      | false => exact ih

/-- find? is unchanged by filtering with a predicate implied by the
searched-for one. -/
theorem find_filter_implied {α : Type} (p q : α → Bool)
    (h : ∀ a, p a = true → q a = true) :
    ∀ l : List α, (l.filter q).find? p = l.find? p := by
  intro l
  induction l with
  | nil => rfl
  | cons a t ih =>
      rw [List.filter_cons]
      cases hq : q a with
      | true =>
          rw [if_pos rfl, List.find?_cons, List.find?_cons]
          cases hpa : p a with
          | true => rfl
          | false => exact ih
      | false =>
          have hpa : p a = false := by
            cases hpa : p a with
            | true => rw [h a hpa] at hq; exact absurd hq (by simp)
            | false => rfl
          simp only [Bool.false_eq_true, if_false]
          rw [ih, List.find?_cons, hpa]

/-- dedup of a non-empty constant list is the singleton. -/
theorem dedup_const (pid : Nat) :
    ∀ (jobs : List String), jobs ≠ [] → (jobs.map (fun _ => pid)).dedup = [pid]
  | [], h => absurd rfl h
  | [_], _ => by simp
  | _ :: j2 :: rest, _ => by
      rw [List.map_cons, List.dedup_cons_of_mem (by simp)]
      exact dedup_const pid (j2 :: rest) (by simp)

/-! ## Claim C1 -/

/-- A completed job record, used to exercise claim C1. -/
def recC1 : JobRecord :=
  { job_id := "job-c1", engine := "easyocr", preprocessing := "none",
    dataset_version := "version-1", dataset_name := "default",
    status := Status.completed, total_images := 3, processed_images := 3,
    created_at := 0, started_at := some 1, completed_at := some 2,
    error_message := none }

/-- Claim C1, as stated, fails at the job-store level: update_job_status
performs no terminal-status check, so calling it on a completed record
with status "running" moves the record to a different (non-terminal)
status. -/
theorem C1_counterexample :
    recC1.status.isTerminal = true ∧
    (update_job_status 10 recC1 Status.running none none).status = Status.running ∧
    Status.running ≠ Status.completed := by
  exact ⟨rfl, update_status 10 recC1 Status.running none none, by decide⟩

/-- Claim C1 (amended): the job-store update operation itself applies any
requested status unconditionally; terminal-status immutability is
enforced at the call sites that run after a terminal write — the
watchdog reconciliation writes nothing when the persisted status is
already terminal, and the delete/cancel path writes cancelled only when
the persisted status is "running", so neither changes a terminal
record. -/
theorem C1_theorem (now pid : Nat) (ec : Option Int) (r : JobRecord)
    (h : r.status.isTerminal = true) :
    apply_watchdog now (some r) pid ec = some r ∧ cancel_if_running now r = r := by
  refine ⟨apply_watchdog_terminal now r pid ec h, ?_⟩
  unfold cancel_if_running
  rw [if_neg]
  intro hrun
  rw [hrun] at h
  exact absurd h (by decide)

/-- Witness for C1_theorem at a concrete terminal record. -/
theorem C1_witness :
    apply_watchdog 10 (some recC1) 1 (some 0) = some recC1 ∧
    cancel_if_running 10 recC1 = recC1 :=
  C1_theorem 10 1 (some 0) recC1 rfl

/-! ## Claim C2 -/

/-- A pending job record, used to exercise claim C2. -/
def recC2 : JobRecord :=
  { job_id := "job-c2", engine := "paddleocr", preprocessing := "none",
    dataset_version := "version-1", dataset_name := "default",
    status := Status.pending, total_images := 3, processed_images := 0,
    created_at := 0, started_at := none, completed_at := none,
    error_message := none }

/-- Claim C2, as stated, is false on the exit-code half: when an
exception escapes the per-job loop, run_inference_process catches the
re-raised exception at its top level (main.py lines 808-818), re-writes
the failed status, and returns normally — the worker process exits with
code 0, not non-zero. -/
theorem C2_counterexample :
    (run_inference_process 1 recC2 [] (some (0, "RuntimeError: boom"))).2 = 0 ∧
    (run_inference_process 1 recC2 [] (some (0, "RuntimeError: boom"))).1.status =
      Status.failed := by
  exact ⟨rfl, rfl⟩

/-- Claim C2 (amended): when an exception escapes the per-job loop,
run_inference marks the job failed with the diagnostic truncated to 2000
characters and re-raises it to its caller; the process-level wrapper
run_inference_process catches the re-raised exception, re-writes the
failed status (again truncated to 2000 characters), and returns
normally, so the worker process exits with code 0 rather than
non-zero. -/
theorem C2_theorem (now : Nat) (r : JobRecord) (units : List (String × UnitPipeline))
    (j : Nat) (e : String) (he : e ≠ "") :
    (∃ rFail, run_inference now r units (some (j, e)) = Except.error (e, rFail) ∧
       rFail.status = Status.failed ∧
       rFail.error_message = some (truncate2000 e) ∧
       (truncate2000 e).length ≤ 2000) ∧
    (run_inference_process now r units (some (j, e))).2 = 0 ∧
    (run_inference_process now r units (some (j, e))).1.status = Status.failed ∧
    (run_inference_process now r units (some (j, e))).1.error_message =
      some (truncate2000 e) := by
  refine ⟨⟨_, rfl, ?_, ?_, truncate2000_length e⟩, rfl, ?_, ?_⟩
  · exact update_status now (run_units now r 0 (units.take j)).1 Status.failed none
      (some (truncate2000 e))
  · exact update_error_some now (run_units now r 0 (units.take j)).1 Status.failed none
      (truncate2000 e) (truncate2000_ne_empty e he)
  · exact update_status now
      (update_job_status now
        (run_units now (update_job_status now r Status.running none none) 0
          (units.take j)).1
        Status.failed none (some (truncate2000 e)))
      Status.failed none (some (truncate2000 e))
  · exact update_error_some now
      (update_job_status now
        (run_units now (update_job_status now r Status.running none none) 0
          (units.take j)).1
        Status.failed none (some (truncate2000 e)))
      Status.failed none (truncate2000 e) (truncate2000_ne_empty e he)

/-- Witness for C2_theorem at a concrete escaping exception. -/
theorem C2_witness :
    (run_inference_process 1 recC2 [] (some (0, "RuntimeError: boom"))).2 = 0 ∧
    (run_inference_process 1 recC2 [] (some (0, "RuntimeError: boom"))).1.status =
      Status.failed ∧
    (run_inference_process 1 recC2 [] (some (0, "RuntimeError: boom"))).1.error_message =
      some (truncate2000 "RuntimeError: boom") :=
  (C2_theorem 1 recC2 [] 0 "RuntimeError: boom" (by decide)).2

/-! ## Claim C3 -/

/-- A running record with total_images = 0 (create_job performs no
validation of the total), used to exercise the watchdog's completed
condition. -/
def recC3z : JobRecord :=
  { job_id := "job-c3z", engine := "easyocr", preprocessing := "none",
    dataset_version := "version-1", dataset_name := "default",
    status := Status.running, total_images := 0, processed_images := 0,
    created_at := 0, started_at := some 1, completed_at := none,
    error_message := none }

/-- A running record mid-way through its images, used as the C3
witness input. -/
def recC3r : JobRecord :=
  { job_id := "job-c3r", engine := "easyocr", preprocessing := "none",
    dataset_version := "version-1", dataset_name := "default",
    status := Status.running, total_images := 3, processed_images := 1,
    created_at := 0, started_at := some 1, completed_at := none,
    error_message := none }

/-- Claim C3, as stated, is false at total_units = 0: the worker exited
cleanly (exit code 0) with processed_units at total_units, yet the
watchdog writes failed, because the code additionally requires
total > 0 (main.py line 352). -/
theorem C3_counterexample :
    recC3z.total_images ≤ recC3z.processed_images ∧
    (apply_watchdog 5 (some recC3z) 42 (some 0)).map JobRecord.status =
      some Status.failed := by
  exact ⟨Nat.le.refl, rfl⟩

/-- Claim C3 (amended): once the watched process is dead, the watchdog
writes nothing if the persisted status is already terminal; otherwise it
writes completed when the exit code is 0, total_units is positive and
processed_units has reached total_units, and otherwise writes failed
with a message embedding the formatted exit code/signal and the last
known progress processed/total (stored truncated to 2000 characters). -/
theorem C3_theorem (now pid : Nat) (ec : Option Int) (r : JobRecord) :
    (r.status.isTerminal = true → apply_watchdog now (some r) pid ec = some r) ∧
    (r.status.isTerminal = false →
      ((ec = some 0 ∧ 0 < r.total_images ∧ r.total_images ≤ r.processed_images) →
        (apply_watchdog now (some r) pid ec).map JobRecord.status =
          some Status.completed) ∧
      (¬(ec = some 0 ∧ 0 < r.total_images ∧ r.total_images ≤ r.processed_images) →
        ∃ r2, apply_watchdog now (some r) pid ec = some r2 ∧
          r2.status = Status.failed ∧
          r2.error_message =
            some (truncate2000
              (watchMsg pid ec r.status r.processed_images r.total_images)) ∧
          (∃ a b, watchMsg pid ec r.status r.processed_images r.total_images =
            a ++ format_exitcode ec ++ b) ∧
          (∃ c d, watchMsg pid ec r.status r.processed_images r.total_images =
            c ++ (toString r.processed_images ++ "/" ++ toString r.total_images) ++ d))) := by
  constructor
  · intro ht
    exact apply_watchdog_terminal now r pid ec ht
  · intro h1
    constructor
    · intro h2
      rw [apply_watchdog_completed now r pid ec h1 h2]
      simp [update_status]
    · intro h2
      refine ⟨_, apply_watchdog_failed now r pid ec h1 h2, ?_, ?_, ?_, ?_⟩
      · exact update_status now r Status.failed none
          (some (truncate2000 (watchMsg pid ec r.status r.processed_images r.total_images)))
      · exact update_error_some now r Status.failed none
          (truncate2000 (watchMsg pid ec r.status r.processed_images r.total_images))
          (truncate2000_ne_empty _
            (watchMsg_ne_empty pid ec r.status r.processed_images r.total_images))
      · refine ⟨"Worker process exited before job completed. pid=" ++ toString pid ++ " ",
          " status=" ++ r.status.toStr ++ " processed=" ++ toString r.processed_images ++
            "/" ++ toString r.total_images, ?_⟩
        unfold watchMsg
        simp [String.append_assoc]
      · refine ⟨"Worker process exited before job completed. pid=" ++ toString pid ++ " " ++
          format_exitcode ec ++ " status=" ++ r.status.toStr ++ " processed=", "", ?_⟩
        unfold watchMsg
        simp [String.append_assoc, String.append_empty]

/-- Witness for C3_theorem: a worker killed by a signal while its job is
non-terminal is reconciled to failed. -/
theorem C3_witness :
    (apply_watchdog 4 (some recC3r) 11 (some (-9))).map JobRecord.status =
      some Status.failed := by
  obtain ⟨r2, he, hs, _, _, _⟩ := ((C3_theorem 4 11 (some (-9)) recC3r).2 rfl).2 (by decide)
  rw [he]
  simp [hs]

/-! ## Claim C4 -/

/-- Three units of which the middle one fails with a per-image timeout,
used to exercise claim C4. -/
def unitsC4 : List (String × UnitPipeline) :=
  [("a.jpg", UnitPipeline.ok [{ class_name := "box_label", confidence := 9 / 10 }]
      [("box_label", Except.ok "LOT 42")]),
   ("b.jpg", UnitPipeline.exc "TimeoutError: timeout: image_pipeline b.jpg"),
   ("c.jpg", UnitPipeline.ok [] [])]

/-- A pending job record, used to exercise claim C4. -/
def recC4 : JobRecord :=
  { job_id := "job-c4", engine := "easyocr", preprocessing := "none",
    dataset_version := "version-1", dataset_name := "default",
    status := Status.pending, total_images := 3, processed_images := 0,
    created_at := 0, started_at := none, completed_at := none,
    error_message := none }

/-- Claim C4 (confirmed): a unit whose pipeline fails is recorded with
empty detections and an empty OCR dict, the job is not aborted — it ends
completed with processed_units equal to the number of units — and a
per-crop OCR failure is recorded as the empty string for that crop. -/
theorem C4_theorem (now : Nat) (r : JobRecord) (units : List (String × UnitPipeline))
    (k : Nat) (name e : String) (hu : units.get? k = some (name, UnitPipeline.exc e)) :
    (run_inference_complete now r units).status = Status.completed ∧
    (run_inference_complete now r units).processed_images = units.length ∧
    (run_units now r 0 units).2.get? k =
      some { image_filename := name, detections := [], ocr_results := [] } ∧
    (∀ dets cls m, (process_unit (UnitPipeline.ok dets [(cls, Except.error m)])).2 =
      [(cls, "")]) := by
  refine ⟨?_, ?_, ?_, ?_⟩
  · exact update_status now (run_units now r 0 units).1 Status.completed
      (some units.length) none
  · exact update_processed_some now (run_units now r 0 units).1 Status.completed none
      units.length
  · rw [run_units_snd, List.get?_map, hu]
    rfl
  · intro dets cls m
    rfl

/-- Witness for C4_theorem on the concrete three-unit job with a failing
middle unit. -/
theorem C4_witness :
    (run_inference_complete 2 recC4 unitsC4).status = Status.completed ∧
    (run_inference_complete 2 recC4 unitsC4).processed_images = unitsC4.length ∧
    (run_units 2 recC4 0 unitsC4).2.get? 1 =
      some { image_filename := "b.jpg", detections := [], ocr_results := [] } :=
  have h := C4_theorem 2 recC4 unitsC4 1 "b.jpg"
    "TimeoutError: timeout: image_pipeline b.jpg" rfl
  ⟨h.1, h.2.1, h.2.2.1⟩

/-! ## Claim C5 -/

/-- The race trace: worker 1 for job-j dies before writing "running";
the dispatcher's DB recovery relaunches the still-pending job-j as
worker 2, which overwrites the registry handle while job-j's original
watcher — still watching the dead worker 1 — stays in place (no new
watcher is created for a job with an active one); the stale watcher then
fires and its finally block pops job-j's registry entry, which by now
holds the LIVE worker 2; the registry is empty, so the dispatcher
launches worker 3 for job-k while worker 2 is still alive. -/
def eventsC5race : List SupEvent :=
  [SupEvent.launch ["job-j"] 1,
   SupEvent.procExit 1,
   SupEvent.launch ["job-j"] 2,
   SupEvent.watchdogFire "job-j" 1,
   SupEvent.launch ["job-k"] 3]

/-- Claim C5, as stated, is false: after the race trace — every step of
which follows the code's own guards — two worker OS processes (pids 2
and 3) are alive at the same instant, while the registry's capacity
accounting reports only one, because the stale watchdog's unconditional
pop (main.py lines 375-379) deregistered the relaunched live worker 2
whose handle had been overwritten without a new watcher (lines
382-387). -/
theorem C5_counterexample :
    (eventsC5race.foldl supStep emptySupervisor).alive.dedup = [3, 2] ∧
    get_active_worker_pids (eventsC5race.foldl supStep emptySupervisor).registry =
      [3] := by
  exact ⟨rfl, rfl⟩

/-- A concrete benign trace: a batch worker for two jobs, its exit, its
watchers firing, then a single-job worker. -/
def eventsC5 : List SupEvent :=
  [SupEvent.launch ["job-x", "job-y"] 5,
   SupEvent.procExit 5,
   SupEvent.watchdogFire "job-x" 5,
   SupEvent.watchdogFire "job-y" 5,
   SupEvent.launch ["job-z"] 9]

/-- Claim C5 (amended): the registry's capacity accounting — the count
the dispatcher consults before launching — never exceeds one in any
reachable supervision state, and _get_active_worker_pids counts unique
live registered pids, so a batch process registered under several job
ids counts once.  The at-most-one bound holds for the accounting (the
registered live workers), not for the worker OS processes themselves:
a stale watchdog's unconditional deregistration of an overwritten handle
can hide a live worker from the registry, after which a second live
worker is launched (see the counterexample trace). -/
theorem C5_theorem (events : List SupEvent) :
    (get_active_worker_pids
      ((events.foldl supStep emptySupervisor).registry)).length ≤ 1 ∧
    ∀ (jobs : List String) (pid : Nat), jobs ≠ [] →
      get_active_worker_pids
        { entries := jobs.map (fun j => (j, pid)), alive := [pid] } = [pid] := by
  constructor
  · exact sup_active_le_one events
  · intro jobs pid hne
    unfold get_active_worker_pids
    dsimp only
    rw [List.filterMap_map]
    have hcomp : ((fun e => if (e : String × Nat).2 ∈ [pid] then some e.2 else none) ∘
        fun j => (j, pid)) = some ∘ (fun _ : String => pid) := by
      funext j
      simp
    rw [hcomp, List.filterMap_eq_map]
    exact dedup_const pid jobs hne

/-- Witness for C5_theorem at a concrete trace and a concrete two-job
batch registry. -/
theorem C5_witness :
    (get_active_worker_pids
      ((eventsC5.foldl supStep emptySupervisor).registry)).length ≤ 1 ∧
    get_active_worker_pids { entries := [("job-x", 5), ("job-y", 5)], alive := [5] } =
      [5] :=
  ⟨(C5_theorem eventsC5).1, (C5_theorem eventsC5).2 ["job-x", "job-y"] 5 (by decide)⟩

/-! ## Claim C6 -/

/-- Two locally enumerated units, while the record was created from a
dataset listing of a single image. -/
def unitsC6 : List (String × UnitPipeline) :=
  [("a.jpg", UnitPipeline.ok [] []), ("b.jpg", UnitPipeline.ok [] [])]

/-- Claim C6, as stated, is false: neither the store nor the worker
clamps processed_images to total_images.  The record is created with the
S3 listing's count (1 here) while the worker iterates the local
directory (2 images here), so the snapshot after the second per-unit
progress write has processed_images = 2 > total_images = 1. -/
theorem C6_counterexample :
    ((single_job_snapshots 0 "job-c6" "easyocr" "version-1" "default" "none" 1
        unitsC6).any
      (fun rec0 => decide (rec0.total_images < rec0.processed_images))) = true := by
  rfl

/-- Claim C6 (amended): provided the worker's local enumeration has no
more units than the total recorded at creation, every observable
snapshot of the job row — creation, the running write, each per-unit
progress write, and the final completed write — satisfies
processed_units less than or equal to total_units. -/
theorem C6_theorem (now : Nat) (job_id engine dsv dsn prep : String)
    (listed : Nat) (units : List (String × UnitPipeline))
    (h : units.length ≤ listed) :
    ∀ rec0 ∈ single_job_snapshots now job_id engine dsv dsn prep listed units,
      rec0.processed_images ≤ rec0.total_images := by
  intro rec0 hmem
  simp only [single_job_snapshots, List.mem_cons, List.mem_append,
    List.mem_singleton, List.not_mem_nil, or_false] at hmem
  rcases hmem with rfl | rfl | hmem | rfl
  · simp [create_job]
  · rw [update_processed_none, update_total]
    simp [create_job]
  · have hb := mem_run_units_records now units
      (update_job_status now
        (create_job job_id engine dsv dsn listed prep now) Status.running none none)
      0 (by rw [update_processed_none]; simp [create_job]) rec0 hmem
    rw [hb.1, update_total]
    have : rec0.processed_images ≤ units.length := by
      have := hb.2
      omega
    calc rec0.processed_images ≤ units.length := this
      _ ≤ listed := h
      _ = (create_job job_id engine dsv dsn listed prep now).total_images := rfl
  · unfold run_inference_complete
    rw [update_processed_some, update_total, run_units_total, update_total]
    calc units.length ≤ listed := h
      _ = (create_job job_id engine dsv dsn listed prep now).total_images := rfl

/-- Witness for C6_theorem: with the listed count matching the local
enumeration, every snapshot keeps processed within total. -/
theorem C6_witness :
    ((single_job_snapshots 0 "job-c6w" "easyocr" "version-1" "default" "none" 2
        unitsC6).all
      (fun rec0 => decide (rec0.processed_images ≤ rec0.total_images))) = true := by
  rw [List.all_eq_true]
  intro rec0 hmem
  exact decide_eq_true
    (C6_theorem 0 "job-c6w" "easyocr" "version-1" "default" "none" 2 unitsC6
      (by decide) rec0 hmem)

/-! ## Claim C7 -/

/-- A running record with completed_at not yet stamped, used to exercise
claim C7. -/
def recC7 : JobRecord :=
  { job_id := "job-c7", engine := "easyocr", preprocessing := "none",
    dataset_version := "version-1", dataset_name := "default",
    status := Status.running, total_images := 3, processed_images := 1,
    created_at := 0, started_at := some 1, completed_at := none,
    error_message := none }

/-- Claim C7, as stated, is false on the cancelled half: transitioning a
running record into cancelled (the terminal status written by the delete
endpoints) does not stamp completed_at, because update_job_status stamps
it only for "completed" and "failed" (inference_service.py line 347). -/
theorem C7_counterexample :
    Status.cancelled.isTerminal = true ∧
    (update_job_status 7 recC7 Status.cancelled none none).status = Status.cancelled ∧
    (update_job_status 7 recC7 Status.cancelled none none).completed_at = none := by
  exact ⟨rfl, rfl, rfl⟩

/-- Claim C7 (amended): update_job_status is a partial merge in which
started_at is stamped exactly when the update carries status "running"
with no processed_units (so per-unit progress updates, which carry
processed_units, never overwrite it), completed_at is stamped exactly on
transitions into completed or failed, and a transition into cancelled
stamps neither timestamp. -/
theorem C7_theorem (now : Nat) (r : JobRecord) (s : Status) (p : Option Nat)
    (e : Option String) :
    (p ≠ none → (update_job_status now r s p e).started_at = r.started_at) ∧
    (s = Status.running → p = none →
      (update_job_status now r s p e).started_at = some now) ∧
    ((s = Status.completed ∨ s = Status.failed) →
      (update_job_status now r s p e).completed_at = some now) ∧
    (s = Status.cancelled →
      (update_job_status now r s p e).completed_at = r.completed_at) := by
  refine ⟨?_, ?_, ?_, ?_⟩
  · intro hp
    match p, hp with
    | some k, _ => exact update_started_of_processed_some now r s e k
  · intro hs hp
    subst hs; subst hp
    exact update_started_running_none now r e
  · intro hs
    exact update_completed_at_done now r s p e hs
  · intro hs
    subst hs
    exact update_completed_at_cancelled now r p e

/-- Witness for C7_theorem: a progress update preserves started_at, a
completed transition stamps completed_at, and a cancelled transition
leaves completed_at untouched. -/
theorem C7_witness :
    (update_job_status 9 recC7 Status.running (some 2) none).started_at =
      recC7.started_at ∧
    (update_job_status 9 recC7 Status.completed none none).completed_at = some 9 ∧
    (update_job_status 9 recC7 Status.cancelled none none).completed_at =
      recC7.completed_at :=
  ⟨(C7_theorem 9 recC7 Status.running (some 2) none).1 (Option.some_ne_none 2),
   (C7_theorem 9 recC7 Status.completed none none).2.2.1 (Or.inl rfl),
   (C7_theorem 9 recC7 Status.cancelled none none).2.2.2 rfl⟩

/-! ## Claim C8 -/

/-- Claim C8 (confirmed): timeout guards nest correctly.  When an outer
guard's timer has R seconds remaining as an inner _time_limit guard is
entered, then — whether the inner body completes or raises the inner
TimeoutError, both of which run the same finally block — after elapsed
seconds of inner execution with elapsed < R, the restored outer timer
has exactly R - elapsed seconds remaining: the inner deadline
(universally quantified and unused here) neither resets nor shortens the
outer budget. -/
theorem C8_theorem (R elapsed innerSeconds iv : Rat)
    (hR : 0 < R) (hel : 0 ≤ elapsed) (hlt : elapsed < R) :
    time_limit_exit (time_limit_enter innerSeconds
        { remaining := R, interval := iv }).1 elapsed =
      { remaining := R - elapsed, interval := iv } := by
  unfold time_limit_enter time_limit_exit
  dsimp only
  rw [if_pos hR]
  have hmax : max 0 (R - elapsed) = R - elapsed := max_eq_right (by linarith)
  rw [hmax, if_pos (by linarith : (0 : Rat) < R - elapsed)]

/-- Witness for C8_theorem: outer timer at 10 s, inner guard of 2 s,
3 s elapsed inside it, 7 s remain on the outer timer afterwards. -/
theorem C8_witness :
    time_limit_exit (time_limit_enter 2 { remaining := 10, interval := 0 }).1 3 =
      { remaining := 7, interval := 0 } := by
  have h := C8_theorem 10 3 2 0 (by norm_num) (by norm_num) (by norm_num)
  rw [h, show (10 : Rat) - 3 = 7 by norm_num]

/-! ## Claim C9 -/

/-- The job currently being deleted; it shares worker pid 7 with
recC9b. -/
def recC9a : JobRecord :=
  { job_id := "job-a9", engine := "easyocr", preprocessing := "none",
    dataset_version := "version-1", dataset_name := "default",
    status := Status.running, total_images := 3, processed_images := 2,
    created_at := 0, started_at := some 1, completed_at := none,
    error_message := none }

/-- A sibling batch job served by the same worker process (pid 7). -/
def recC9b : JobRecord :=
  { job_id := "job-b9", engine := "easyocr", preprocessing := "sharpen",
    dataset_version := "version-1", dataset_name := "default",
    status := Status.running, total_images := 3, processed_images := 1,
    created_at := 0, started_at := some 1, completed_at := none,
    error_message := none }

/-- Registry in which both batch jobs are served by the single live
worker process with pid 7. -/
def regC9 : Registry :=
  { entries := [("job-a9", 7), ("job-b9", 7)], alive := [7] }

/-- Claim C9, as stated, is false: deleting job-a9 terminates the batch
worker shared with job-b9 (the registry shows no live pid afterwards),
yet job-b9's record is left in status running — it is not cancelled —
and the endpoint's response is the fixed string mentioning only the
deleted job, so nothing is surfaced about the sibling. -/
theorem C9_counterexample :
    (find_job (delete_job_endpoint 3 [recC9a, recC9b] regC9 "job-a9").1
        "job-b9").map JobRecord.status = some Status.running ∧
    (delete_job_endpoint 3 [recC9a, recC9b] regC9 "job-a9").2.1.alive = [] ∧
    (delete_job_endpoint 3 [recC9a, recC9b] regC9 "job-a9").2.2 =
      DeleteOutcome.deleted "Job deleted from Pixeltable" := by
  exact ⟨rfl, rfl, rfl⟩

/-- Claim C9 (amended): deleting one job of a batch kills the worker
process shared with the sibling jobs, but the delete endpoint leaves
every sibling record untouched (in particular not cancelled) and reports
only the fixed per-job message; each non-terminal sibling is later
marked failed — not cancelled — by its watchdog once it observes the
killed process. -/
theorem C9_theorem (now now2 pidW : Nat) (ecode : Int) (recs : List JobRecord)
    (reg : Registry) (A B : String) (rA rB : JobRecord)
    (hAB : B ≠ A)
    (hfA : find_job recs A = some rA)
    (hfB : find_job recs B = some rB)
    (hApid : lookupPid reg A = some pidW)
    (hBpid : lookupPid reg B = some pidW)
    (hBrun : rB.status = Status.running)
    (hec : ecode ≠ 0) :
    find_job (delete_job_endpoint now recs reg A).1 B = some rB ∧
    pidW ∉ (delete_job_endpoint now recs reg A).2.1.alive ∧
    (delete_job_endpoint now recs reg A).2.2 =
      DeleteOutcome.deleted "Job deleted from Pixeltable" ∧
    (apply_watchdog now2 (find_job (delete_job_endpoint now recs reg A).1 B) pidW
        (some ecode)).map JobRecord.status = some Status.failed := by
  have hend : delete_job_endpoint now recs reg A =
      ((if rA.status = Status.running then
          recs.map (fun x =>
            if x.job_id == A then update_job_status now x Status.cancelled none none
            else x)
        else recs).filter (fun x => x.job_id != A),
       terminate_workers_for_job_ids reg [A],
       DeleteOutcome.deleted "Job deleted from Pixeltable") := by
    unfold delete_job_endpoint
    rw [hfA]
  have hfind : find_job (delete_job_endpoint now recs reg A).1 B = some rB := by
    rw [hend]
    dsimp only
    unfold find_job
    rw [find_filter_implied (fun x : JobRecord => x.job_id == B)
      (fun x : JobRecord => x.job_id != A) ?himp]
    case himp =>
      intro a ha
      have haB : a.job_id = B := by
        have := ha
        simpa using this
      simp [haB, hAB]
    by_cases hc : rA.status = Status.running
    · rw [if_pos hc]
      rw [find_map_pred_preserved
        (fun x : JobRecord =>
          if x.job_id == A then update_job_status now x Status.cancelled none none
          else x)
        (fun x : JobRecord => x.job_id == B) ?hg ?hfix]
      · exact hfB
      case hg =>
        intro a
        dsimp only
        by_cases haA : (a.job_id == A) = true
        · rw [if_pos haA]
          rw [update_job_id]
        · rw [if_neg haA]
      case hfix =>
        intro a ha
        have haB : a.job_id = B := by simpa using ha
        dsimp only
        rw [if_neg]
        simp [haB, hAB]
    · rw [if_neg hc]
      exact hfB
  refine ⟨hfind, ?_, ?_, ?_⟩
  · rw [hend]
    dsimp only
    intro hmem
    unfold terminate_workers_for_job_ids at hmem
    dsimp only at hmem
    have := List.mem_filter.mp hmem
    have hpred := this.2
    have hany : ([A].any (fun j => lookupPid reg j == some pidW)) = true := by
      simp [hApid]
    rw [hany] at hpred
    exact absurd hpred (by decide)
  · rw [hend]
  · rw [hfind]
    have hnt : rB.status.isTerminal = false := by rw [hBrun]; rfl
    have hcond : ¬((some ecode : Option Int) = some 0 ∧ 0 < rB.total_images ∧
        rB.total_images ≤ rB.processed_images) := by
      rintro ⟨h0, -⟩
      exact hec (Option.some_injective Int h0)
    rw [apply_watchdog_failed now2 rB pidW (some ecode) hnt hcond]
    simp [update_status]

/-- Witness for C9_theorem on the concrete two-job batch. -/
theorem C9_witness :
    find_job (delete_job_endpoint 3 [recC9a, recC9b] regC9 "job-a9").1 "job-b9" =
      some recC9b ∧
    7 ∉ (delete_job_endpoint 3 [recC9a, recC9b] regC9 "job-a9").2.1.alive ∧
    (delete_job_endpoint 3 [recC9a, recC9b] regC9 "job-a9").2.2 =
      DeleteOutcome.deleted "Job deleted from Pixeltable" ∧
    (apply_watchdog 4 (find_job (delete_job_endpoint 3 [recC9a, recC9b] regC9
        "job-a9").1 "job-b9") 7 (some (-15))).map JobRecord.status =
      some Status.failed :=
  C9_theorem 3 4 7 (-15) [recC9a, recC9b] regC9 "job-a9" "job-b9" recC9a recC9b
    (by decide) rfl rfl rfl rfl rfl (by decide)

/-! ## Claim C10 -/

/-- A cancelled record still present in the store, used to exercise claim
C10. -/
def recC10 : JobRecord :=
  { job_id := "job-q1", engine := "easyocr", preprocessing := "none",
    dataset_version := "version-1", dataset_name := "default",
    status := Status.cancelled, total_images := 3, processed_images := 1,
    created_at := 0, started_at := some 1, completed_at := none,
    error_message := none }

/-- Claim C10 (confirmed): the dispatcher's _start_queue_item discards —
returning no launch action — a single-job item whose record no longer
exists or whose persisted status is not pending, and a batch item none
of whose job records still exist; so a job cancelled or deleted before
dispatch is never started. -/
theorem C10_theorem (recs : List JobRecord) (job : String) (jobs : List String) :
    (find_job recs job = none → start_queue_item recs (QueueItem.single job) = none) ∧
    (∀ r, find_job recs job = some r → r.status ≠ Status.pending →
      start_queue_item recs (QueueItem.single job) = none) ∧
    ((∀ j ∈ jobs, find_job recs j = none) →
      start_queue_item recs (QueueItem.batch jobs) = none) := by
  refine ⟨?_, ?_, ?_⟩
  · intro h
    simp [start_queue_item, h]
  · intro r hr hs
    simp [start_queue_item, hr, hs]
  · intro h
    unfold start_queue_item
    dsimp only
    by_cases hj : jobs = []
    · rw [if_pos hj]
    · rw [if_neg hj, if_neg]
      intro hc
      rw [List.any_eq_true] at hc
      obtain ⟨j, hjmem, hsome⟩ := hc
      rw [h j (List.take_subset 3 jobs hjmem)] at hsome
      exact absurd hsome (by decide)

/-- Witness for C10_theorem: a missing record, a cancelled record and a
fully deleted batch are all discarded without a launch. -/
theorem C10_witness :
    start_queue_item [recC10] (QueueItem.single "job-gone") = none ∧
    start_queue_item [recC10] (QueueItem.single "job-q1") = none ∧
    start_queue_item [recC10] (QueueItem.batch ["gone1", "gone2"]) = none :=
  ⟨(C10_theorem [recC10] "job-gone" []).1 rfl,
   (C10_theorem [recC10] "job-q1" []).2.1 recC10 rfl (by decide),
   (C10_theorem [recC10] "x" ["gone1", "gone2"]).2.2 (by decide)⟩

end BoxLabelHub
